import Mathlib

/-!
Verification of the SECOM MES operators API client
(`src/operators/operators_api.py`) against its specification.

The Python module is a thin async HTTP client.  We embed it shallowly:

* JSON values are an inductive `Json` (the values `response.json()` yields).
* An HTTP request is a `Request` record (method, url, body, params, headers,
  timeout), exactly the arguments `httpx` receives in `_make_request`.
* The external world (server plus transport) is a function from requests to
  outcomes (`World.respond`), together with the current clock reading
  (`World.now`, standing for `datetime.now().isoformat()`).
* Every operation returns the list of HTTP requests it issued paired with an
  `Except HError` result, so that request counts, error propagation and
  exception classes are all provable facts about the definitions.

Python-level partial operations (`op.get(...)` on a non-dict, `len` of a
non-sized value, iterating a non-iterable) are modelled faithfully by
`Json.pyDictGet`, `Json.pyLen`, `Json.pyIter`, which raise the corresponding
Python exception class.
-/

/-- JSON values, as produced by `response.json()` in the Python client. -/
inductive Json where
  | null : Json
  | bool : Bool → Json
  | num : Int → Json
  | str : String → Json
  | arr : List Json → Json
  | obj : List (String × Json) → Json

/-- Exception classes the embedded code can raise.  `httpStatusError` is
`httpx.HTTPStatusError` (carrying the response status code),
`transportError` covers every `httpx.TransportError` (connection failure,
timeout); both are subclasses of `httpx.HTTPError` in Python.  `typeError`
and `attributeError` are the builtin Python exceptions. -/
inductive HError where
  | httpStatusError : Nat → HError
  | transportError : HError
  | typeError : HError
  | attributeError : HError
deriving DecidableEq

/-- Is this error an `httpx.HTTPError` (base class of both the status and the
transport errors)?  Used to model `except httpx.HTTPError`. -/
def HError.isHttpError : HError → Bool
  | .httpStatusError _ => true
  | .transportError => true
  | _ => false

/-- An HTTP request exactly as `_make_request` hands it to
`httpx.AsyncClient.request`. -/
structure Request where
  method : String
  url : String
  jsonData : Option Json
  params : Option (List (String × Json))
  headers : List (String × String)
  timeout : Nat

/-- What the transport can give back for one request: a transport-level
failure, or a response with a status code and a JSON body. -/
inductive TransportResult where
  | transportError : TransportResult
  | response : Nat → Json → TransportResult

/-- The external world: the server/transport behaviour and the clock. -/
structure World where
  respond : Request → TransportResult
  now : String

/-- An `httpx.Response`: status code and parsed JSON body (`response.json()`
returns `body`). -/
structure Response where
  status : Nat
  body : Json

/-- `response.is_success` in httpx: status in 2xx. -/
def isSuccess (s : Nat) : Bool := 200 ≤ s && s < 300

/-- Python `op.get(key)`: on a dict, the value (or `None` when the key is
absent); on any other value, `AttributeError`. -/
def Json.pyDictGet : Json → String → Except HError Json
  | .obj fields, k => .ok ((fields.lookup k).getD .null)
  | _, _ => .error .attributeError

/-- Python `len(x)`: length of a list, dict or string; `TypeError` on other
values. -/
def Json.pyLen : Json → Except HError Nat
  | .arr xs => .ok xs.length
  | .obj fs => .ok fs.length
  | .str s => .ok s.length
  | _ => .error .typeError

/-- Python iteration over a JSON value: a list yields its elements, a dict
its keys, a string its characters; other values raise `TypeError`. -/
def Json.pyIter : Json → Except HError (List Json)
  | .arr xs => .ok xs
  | .obj fs => .ok (fs.map (fun p => .str p.1))
  | .str s => .ok (s.toList.map (fun c => .str (String.mk [c])))
  | _ => .error .typeError

/-- Python `==` between a JSON value and a string. -/
def jsonEqStr : Json → String → Bool
  | .str s, t => s == t
  | _, _ => false

/-- Python truthiness of an `Optional[str]` argument: truthy exactly when it
is present and non-empty. -/
def optStrTruthy : Option String → Bool
  | some s => s ≠ ""
  | none => false

/-- `DEFAULT_BASE_URL` from the module. -/
def DEFAULT_BASE_URL : String := "http://localhost:8080/api/v1"

/-- The headers `_make_request` always sends. -/
def jsonHeaders : List (String × String) :=
  [("Content-Type", "application/json"), ("Accept", "application/json")]

/-- `_make_request`: builds the url by concatenating base url and endpoint,
issues one request with the JSON headers, calls `raise_for_status` (raising
`httpx.HTTPStatusError` with the status code when the status is not 2xx) and
otherwise returns the response.  First component: the requests issued. -/
def mkRequest (w : World) (method endpoint : String)
    (base_url : String := DEFAULT_BASE_URL)
    (json_data : Option Json := none)
    (params : Option (List (String × Json)) := none)
    (timeout : Nat := 30) : List Request × Except HError Response :=
  let url := base_url ++ endpoint
  let req : Request :=
    { method := method, url := url, jsonData := json_data, params := params,
      headers := jsonHeaders, timeout := timeout }
  match w.respond req with
  | .transportError => ([req], .error .transportError)
  | .response status body =>
    if isSuccess status then ([req], .ok ⟨status, body⟩)
    else ([req], .error (.httpStatusError status))

/-- `get_operator_by_id`: GET `/operators/{operator_id}`, returning
`response.json()`. -/
def get_operator_by_id (w : World) (operator_id : Int)
    (base_url : String := DEFAULT_BASE_URL) : List Request × Except HError Json :=
  let p := mkRequest w "GET" ("/operators/" ++ toString operator_id) base_url
  (p.1, p.2.map Response.body)

/-- `get_all_operators`: GET `/operators`, returning `response.json()`. -/
def get_all_operators (w : World)
    (base_url : String := DEFAULT_BASE_URL) : List Request × Except HError Json :=
  let p := mkRequest w "GET" "/operators" base_url
  (p.1, p.2.map Response.body)

/-- `get_operator_lots`: GET `/operators/{operator_id}/lots`, returning
`response.json()`. -/
def get_operator_lots (w : World) (operator_id : Int)
    (base_url : String := DEFAULT_BASE_URL) : List Request × Except HError Json :=
  let p :=
    mkRequest w "GET" ("/operators/" ++ toString operator_id ++ "/lots") base_url
  (p.1, p.2.map Response.body)

/-- `get_operators_by_department`: GET `/operators/department/{department}`,
returning `response.json()`. -/
def get_operators_by_department (w : World) (department : String)
    (base_url : String := DEFAULT_BASE_URL) : List Request × Except HError Json :=
  let p :=
    mkRequest w "GET" ("/operators/department/" ++ department) base_url
  (p.1, p.2.map Response.body)

/-- `get_operator_by_code`: GET `/operators/code/{code}`, returning
`response.json()`. -/
def get_operator_by_code (w : World) (code : String)
    (base_url : String := DEFAULT_BASE_URL) : List Request × Except HError Json :=
  let p := mkRequest w "GET" ("/operators/code/" ++ code) base_url
  (p.1, p.2.map Response.body)

/-- The status list comprehension in `search_operators`:
`[op for op in operators if op.get("status") == status]`.  A non-dict
element raises `AttributeError` (so the whole comprehension does). -/
def filterByStatus : List Json → String → Except HError (List Json)
  | [], _ => .ok []
  | op :: rest, s =>
    match op with
    | .obj fs =>
      match filterByStatus rest s with
      | .error e => .error e
      | .ok tail =>
        if jsonEqStr ((fs.lookup "status").getD .null) s then .ok (op :: tail)
        else .ok tail
    | _ => .error .attributeError

/-- `get_operator_summary`: fetches the operator, then the operator's lots,
and builds the dict
`{operator, lots, total_lots: len(lots), departments: [operator.get("department")],
summary_generated_at: datetime.now().isoformat()}`.
Either fetch failing propagates its error; the dict values are evaluated left
to right, so `len(lots)` (TypeError on a non-sized body) is evaluated before
`operator.get("department")` (AttributeError on a non-dict body). -/
def get_operator_summary (w : World) (operator_id : Int)
    (base_url : String := DEFAULT_BASE_URL) : List Request × Except HError Json :=
  let p1 := get_operator_by_id w operator_id base_url
  match p1.2 with
  | .error e => (p1.1, .error e)
  | .ok operator =>
    let p2 := get_operator_lots w operator_id base_url
    (p1.1 ++ p2.1,
      match p2.2 with
      | .error e => .error e
      | .ok lots =>
        match lots.pyLen with
        | .error e => .error e
        | .ok n =>
          match operator.pyDictGet "department" with
          | .error e => .error e
          | .ok dep =>
            .ok (.obj
              [("operator", operator), ("lots", lots),
               ("total_lots", .num n), ("departments", .arr [dep]),
               ("summary_generated_at", .str w.now)]))

/-- `search_operators`: `if department:` (Python truthiness) selects
`get_operators_by_department`, else `get_all_operators`; then
`if status:` applies the in-memory comprehension filter; the (possibly
filtered) value is returned. -/
def search_operators (w : World) (department status : Option String)
    (base_url : String := DEFAULT_BASE_URL) : List Request × Except HError Json :=
  let p :=
    if optStrTruthy department then
      get_operators_by_department w (department.getD "") base_url
    else
      get_all_operators w base_url
  (p.1,
    match p.2 with
    | .error e => .error e
    | .ok operators =>
      if optStrTruthy status then
        match operators.pyIter with
        | .error e => .error e
        | .ok ops => (filterByStatus ops (status.getD "")).map Json.arr
      else .ok operators)

/-- `safe_get_operator`: wraps `get_operator_by_id` in
`try / except httpx.HTTPStatusError / except httpx.HTTPError`.  A 404 status
error becomes `None`; any other status error is re-raised (a raise inside an
except clause is not caught by the later clauses of the same try); any other
`httpx.HTTPError` (all transport errors) becomes `None`. -/
def safe_get_operator (w : World) (operator_id : Int)
    (base_url : String := DEFAULT_BASE_URL) :
    List Request × Except HError (Option Json) :=
  let p := get_operator_by_id w operator_id base_url
  (p.1,
    match p.2 with
    | .ok op => .ok (some op)
    | .error (.httpStatusError s) =>
      if s = 404 then .ok none else .error (.httpStatusError s)
    | .error e =>
      if e.isHttpError then .ok none else .error e)

/-- The GET request every accessor issues for a given url: built by
`_make_request` with the JSON headers, no body, no query parameters, and the
default timeout of 30 seconds. -/
def getReq (url : String) : Request :=
  { method := "GET", url := url, jsonData := none, params := none,
    headers := jsonHeaders, timeout := 30 }

/-- A sample operator record, as in the spec scenario. -/
def opJohn : Json := .obj
  [("operatorId", .num 1), ("operatorCode", .str "OP001"),
   ("operatorName", .str "John Smith"), ("department", .str "Production"),
   ("status", .str "Active")]

/-- A second sample operator record, with a different department and status. -/
def opJane : Json := .obj
  [("operatorId", .num 2), ("operatorCode", .str "OP002"),
   ("operatorName", .str "Jane Doe"), ("department", .str "Quality"),
   ("status", .str "Inactive")]

/-- A sample lot record. -/
def lotA : Json := .obj [("lotId", .num 10), ("lotNumber", .str "LOT001")]

/-- A second sample lot record. -/
def lotB : Json := .obj [("lotId", .num 11), ("lotNumber", .str "LOT002")]

/-- A mock server (base url "B") used to instantiate the theorems on concrete
inputs: operator 1 exists with two lots, operator 500 answers HTTP 500,
operator 7 hits a transport failure, and everything else answers 404. -/
def mockWorld : World :=
  { respond := fun req =>
      if req.url = "B/operators/1" then .response 200 opJohn
      else if req.url = "B/operators/1/lots" then .response 200 (.arr [lotA, lotB])
      else if req.url = "B/operators" then .response 200 (.arr [opJohn, opJane])
      else if req.url = "B/operators/department/Production" then .response 200 (.arr [opJohn])
      else if req.url = "B/operators/code/OP001" then .response 200 opJohn
      else if req.url = "B/operators/500" then .response 500 .null
      else if req.url = "B/operators/7" then .transportError
      else .response 404 .null
  , now := "2026-10-12T00:00:00" }

/-- A mock server on which the list returned for the department url of the
empty department differs from the list returned for the all-operators url;
it separates the two fetch choices of `search_operators`. -/
def splitWorld : World :=
  { respond := fun req =>
      if req.url = "B/operators" then .response 200 (.arr [.num 1])
      else if req.url = "B/operators/department/" then .response 200 (.arr [.num 2])
      else .response 404 .null
  , now := "T" }

/-! ## Helper lemmas -/

theorem mkRequest_fst (w : World) (m e b : String) (jd : Option Json)
    (pa : Option (List (String × Json))) (t : Nat) :
    (mkRequest w m e b jd pa t).1 = [⟨m, b ++ e, jd, pa, jsonHeaders, t⟩] := by
  simp only [mkRequest]
  rcases w.respond ⟨m, b ++ e, jd, pa, jsonHeaders, t⟩ with _ | ⟨s, body⟩
  · rfl
  · by_cases hs : isSuccess s = true <;> simp [hs]

theorem mkRequest_snd_success (w : World) (m e b : String) (jd : Option Json)
    (pa : Option (List (String × Json))) (t : Nat) (s : Nat) (body : Json)
    (h : w.respond ⟨m, b ++ e, jd, pa, jsonHeaders, t⟩ = .response s body)
    (hs : isSuccess s = true) :
    (mkRequest w m e b jd pa t).2 = .ok ⟨s, body⟩ := by
  simp only [mkRequest, h, hs]
  rfl

theorem mkRequest_snd_failure (w : World) (m e b : String) (jd : Option Json)
    (pa : Option (List (String × Json))) (t : Nat) (s : Nat) (body : Json)
    (h : w.respond ⟨m, b ++ e, jd, pa, jsonHeaders, t⟩ = .response s body)
    (hs : isSuccess s = false) :
    (mkRequest w m e b jd pa t).2 = .error (.httpStatusError s) := by
  simp only [mkRequest, h, hs]
  rfl

theorem mkRequest_snd_transport (w : World) (m e b : String) (jd : Option Json)
    (pa : Option (List (String × Json))) (t : Nat)
    (h : w.respond ⟨m, b ++ e, jd, pa, jsonHeaders, t⟩ = .transportError) :
    (mkRequest w m e b jd pa t).2 = .error .transportError := by
  simp only [mkRequest, h]

/-! ## Claim theorems -/

/-- C6: `_make_request` issues exactly one HTTP request, to the concatenation
of base url and path, with the JSON content-type and accept headers and the
given method, body, query parameters and timeout; when the server responds,
it raises an HTTP-status error carrying the status code precisely when the
status is not 2xx, and otherwise returns the raw response (status and body)
unchanged. -/
theorem make_request_contract (w : World) (method endpoint base_url : String)
    (json_data : Option Json) (params : Option (List (String × Json)))
    (timeout : Nat) :
    (mkRequest w method endpoint base_url json_data params timeout).1 =
      [⟨method, base_url ++ endpoint, json_data, params, jsonHeaders, timeout⟩] ∧
    (∀ s body,
      w.respond ⟨method, base_url ++ endpoint, json_data, params, jsonHeaders, timeout⟩ =
        .response s body →
      ((mkRequest w method endpoint base_url json_data params timeout).2 =
          .error (.httpStatusError s) ↔ isSuccess s = false) ∧
      (isSuccess s = true →
        (mkRequest w method endpoint base_url json_data params timeout).2 =
          .ok ⟨s, body⟩)) := by
  refine ⟨mkRequest_fst w method endpoint base_url json_data params timeout, ?_⟩
  intro s body h
  by_cases hs : isSuccess s = true
  · refine ⟨?_, fun _ => mkRequest_snd_success w _ _ _ _ _ _ _ _ h hs⟩
    rw [mkRequest_snd_success w _ _ _ _ _ _ _ _ h hs]
    simp [hs]
  · have hs' : isSuccess s = false := by
      cases hsv : isSuccess s
      · rfl
      · exact absurd hsv hs
    refine ⟨?_, fun hc => absurd hc hs⟩
    rw [mkRequest_snd_failure w _ _ _ _ _ _ _ _ h hs']
    simp [hs']

/-- C6 witness: the contract instantiated on the mock server at the url of
operator 1, which answers 200 with the sample operator record. -/
theorem make_request_contract_witness :
    (mkRequest mockWorld "GET" "/operators/1" "B" none none 30).2 =
      .ok ⟨200, opJohn⟩ :=
  ((make_request_contract mockWorld "GET" "/operators/1" "B" none none 30).2
    200 opJohn rfl).2 rfl

/-- C7: each of the five entity accessors issues a single GET to its
documented endpoint path relative to the base url, and on a successful
response returns the JSON-parsed body exactly as received, with no
validation or transformation of its shape. -/
theorem accessors_forward_to_endpoints (w : World) (operator_id : Int)
    (department code base_url : String) :
    (get_operator_by_id w operator_id base_url).1 =
      [getReq (base_url ++ ("/operators/" ++ toString operator_id))] ∧
    (get_all_operators w base_url).1 = [getReq (base_url ++ "/operators")] ∧
    (get_operator_lots w operator_id base_url).1 =
      [getReq (base_url ++ ("/operators/" ++ toString operator_id ++ "/lots"))] ∧
    (get_operators_by_department w department base_url).1 =
      [getReq (base_url ++ ("/operators/department/" ++ department))] ∧
    (get_operator_by_code w code base_url).1 =
      [getReq (base_url ++ ("/operators/code/" ++ code))] ∧
    (∀ s body, isSuccess s = true →
      (w.respond (getReq (base_url ++ ("/operators/" ++ toString operator_id))) =
          .response s body →
        (get_operator_by_id w operator_id base_url).2 = .ok body) ∧
      (w.respond (getReq (base_url ++ "/operators")) = .response s body →
        (get_all_operators w base_url).2 = .ok body) ∧
      (w.respond (getReq (base_url ++ ("/operators/" ++ toString operator_id ++ "/lots"))) =
          .response s body →
        (get_operator_lots w operator_id base_url).2 = .ok body) ∧
      (w.respond (getReq (base_url ++ ("/operators/department/" ++ department))) =
          .response s body →
        (get_operators_by_department w department base_url).2 = .ok body) ∧
      (w.respond (getReq (base_url ++ ("/operators/code/" ++ code))) = .response s body →
        (get_operator_by_code w code base_url).2 = .ok body)) := by
  refine ⟨mkRequest_fst w _ _ _ _ _ _, mkRequest_fst w _ _ _ _ _ _,
    mkRequest_fst w _ _ _ _ _ _, mkRequest_fst w _ _ _ _ _ _,
    mkRequest_fst w _ _ _ _ _ _, ?_⟩
  intro s body hs
  refine ⟨fun h => ?_, fun h => ?_, fun h => ?_, fun h => ?_, fun h => ?_⟩ <;>
    simp only [get_operator_by_id, get_all_operators, get_operator_lots,
      get_operators_by_department, get_operator_by_code] <;>
    rw [mkRequest_snd_success w _ _ _ _ _ _ _ _ h hs] <;> rfl

/-- C7 witness: the accessor contract instantiated on the mock server, reading
operator 1 by id via the `/operators/1` endpoint. -/
theorem accessors_forward_to_endpoints_witness :
    (get_operator_by_id mockWorld 1 "B").2 = .ok opJohn :=
  (((accessors_forward_to_endpoints mockWorld 1 "Production" "OP001" "B").2.2.2.2.2
    200 opJohn rfl).1) rfl

/-- C8: assuming the server answers GET `/operators/id` with a record whose
operatorId field is the requested id, `get_operator_by_id` returns a record
whose operatorId field equals the requested id. -/
theorem get_operator_by_id_returns_requested_id (w : World) (operator_id : Int)
    (base_url : String) (s : Nat) (fs : List (String × Json))
    (hresp : w.respond (getReq (base_url ++ ("/operators/" ++ toString operator_id))) =
      .response s (.obj fs))
    (hs : isSuccess s = true)
    (hid : fs.lookup "operatorId" = some (.num operator_id)) :
    ∃ fs', (get_operator_by_id w operator_id base_url).2 = .ok (.obj fs') ∧
      fs'.lookup "operatorId" = some (.num operator_id) := by
  refine ⟨fs, ?_, hid⟩
  simp only [get_operator_by_id]
  rw [mkRequest_snd_success w _ _ _ _ _ _ _ _ hresp hs]
  rfl

/-- C8 witness: on the mock server, fetching operator 1 yields a record whose
operatorId field is 1. -/
theorem get_operator_by_id_returns_requested_id_witness :
    ∃ fs', (get_operator_by_id mockWorld 1 "B").2 = .ok (.obj fs') ∧
      fs'.lookup "operatorId" = some (.num 1) :=
  get_operator_by_id_returns_requested_id mockWorld 1 "B" 200
    [("operatorId", .num 1), ("operatorCode", .str "OP001"),
     ("operatorName", .str "John Smith"), ("department", .str "Production"),
     ("status", .str "Active")] rfl rfl rfl

/-- C9: for every server behaviour, each of the five accessors issues exactly
one HTTP request, and that request carries the default timeout of 30: the
accessors pass no timeout to `_make_request`, whose default is 30, and no
retry is ever performed. -/
theorem accessors_single_request_default_timeout (w : World) (operator_id : Int)
    (department code base_url : String) :
    (get_operator_by_id w operator_id base_url).1.map Request.timeout = [30] ∧
    (get_all_operators w base_url).1.map Request.timeout = [30] ∧
    (get_operator_lots w operator_id base_url).1.map Request.timeout = [30] ∧
    (get_operators_by_department w department base_url).1.map Request.timeout = [30] ∧
    (get_operator_by_code w code base_url).1.map Request.timeout = [30] := by
  refine ⟨?_, ?_, ?_, ?_, ?_⟩ <;>
    simp only [get_operator_by_id, get_all_operators, get_operator_lots,
      get_operators_by_department, get_operator_by_code, mkRequest_fst] <;>
    rfl

/-- C1: when the fetch of an operator by id hits a transport-level failure or
an HTTP 404 response, `safe_get_operator` returns the absent value instead of
raising: the 404 status error is converted by the first except clause and any
transport error by the `httpx.HTTPError` clause. -/
theorem safe_get_operator_absent_on_404_or_transport (w : World)
    (operator_id : Int) (base_url : String)
    (h : w.respond (getReq (base_url ++ ("/operators/" ++ toString operator_id))) =
          .transportError ∨
        ∃ body,
          w.respond (getReq (base_url ++ ("/operators/" ++ toString operator_id))) =
            .response 404 body) :
    (safe_get_operator w operator_id base_url).2 = .ok none := by
  rcases h with h | ⟨body, h⟩
  · simp only [safe_get_operator, get_operator_by_id]
    rw [mkRequest_snd_transport w _ _ _ _ _ _ h]
    rfl
  · simp only [safe_get_operator, get_operator_by_id]
    rw [mkRequest_snd_failure w _ _ _ _ _ _ _ _ h (by decide)]
    rfl

/-- C1 witness: on the mock server, operator 999 answers 404 and
`safe_get_operator` returns the absent value. -/
theorem safe_get_operator_absent_witness :
    (safe_get_operator mockWorld 999 "B").2 = .ok none :=
  safe_get_operator_absent_on_404_or_transport mockWorld 999 "B"
    (.inr ⟨.null, rfl⟩)

/-- C10: when the fetch of an operator by id receives an HTTP response whose
status is neither 2xx nor 404 (for example 500), `safe_get_operator`
re-raises the status error carrying that status code instead of returning
the absent value: a raise inside the first except clause is not caught by
the later `httpx.HTTPError` clause. -/
theorem safe_get_operator_reraises_non404 (w : World) (operator_id : Int)
    (base_url : String) (s : Nat) (body : Json)
    (h : w.respond (getReq (base_url ++ ("/operators/" ++ toString operator_id))) =
      .response s body)
    (hs : isSuccess s = false) (h404 : s ≠ 404) :
    (safe_get_operator w operator_id base_url).2 = .error (.httpStatusError s) := by
  simp only [safe_get_operator, get_operator_by_id]
  rw [mkRequest_snd_failure w _ _ _ _ _ _ _ _ h hs]
  simp [Except.map, h404]

/-- C10 witness: on the mock server, operator 500 answers HTTP 500 and
`safe_get_operator` re-raises the status error carrying 500. -/
theorem safe_get_operator_reraises_witness :
    (safe_get_operator mockWorld 500 "B").2 = .error (.httpStatusError 500) :=
  safe_get_operator_reraises_non404 mockWorld 500 "B" 500 .null rfl
    (by decide) (by decide)

/-- C2: when the fetch of the operator succeeds with a record and the fetch of
its lots succeeds with a list, `get_operator_summary` returns the composite
record whose operator field is the fetched operator, whose lots field is the
fetched lot list, whose total_lots field is the length of that list, whose
departments field is the one-element list holding the operator's department,
and whose summary_generated_at field is the current timestamp. -/
theorem get_operator_summary_composite (w : World) (operator_id : Int)
    (base_url : String) (s1 s2 : Nat) (fs : List (String × Json))
    (lots : List Json) (dep : Json)
    (h1 : w.respond (getReq (base_url ++ ("/operators/" ++ toString operator_id))) =
      .response s1 (.obj fs))
    (hs1 : isSuccess s1 = true)
    (h2 : w.respond
        (getReq (base_url ++ ("/operators/" ++ toString operator_id ++ "/lots"))) =
      .response s2 (.arr lots))
    (hs2 : isSuccess s2 = true)
    (hdep : fs.lookup "department" = some dep) :
    (get_operator_summary w operator_id base_url).2 = .ok (.obj
      [("operator", .obj fs), ("lots", .arr lots),
       ("total_lots", .num lots.length), ("departments", .arr [dep]),
       ("summary_generated_at", .str w.now)]) := by
  simp only [get_operator_summary, get_operator_by_id, get_operator_lots]
  rw [mkRequest_snd_success w _ _ _ _ _ _ _ _ h1 hs1,
    mkRequest_snd_success w _ _ _ _ _ _ _ _ h2 hs2]
  simp [Except.map, Json.pyLen, Json.pyDictGet, hdep]

/-- C2 witness: on the mock server, operator 1 has two lots, so the summary
record for operator 1 holds the fetched operator, its two lots, total_lots 2,
departments `["Production"]` and the clock reading. -/
theorem get_operator_summary_composite_witness :
    (get_operator_summary mockWorld 1 "B").2 = .ok (.obj
      [("operator", .obj
         [("operatorId", .num 1), ("operatorCode", .str "OP001"),
          ("operatorName", .str "John Smith"), ("department", .str "Production"),
          ("status", .str "Active")]),
       ("lots", .arr [lotA, lotB]),
       ("total_lots", .num 2), ("departments", .arr [.str "Production"]),
       ("summary_generated_at", .str "2026-10-12T00:00:00")]) :=
  get_operator_summary_composite mockWorld 1 "B" 200 200
    [("operatorId", .num 1), ("operatorCode", .str "OP001"),
     ("operatorName", .str "John Smith"), ("department", .str "Production"),
     ("status", .str "Active")]
    [lotA, lotB] (.str "Production") rfl rfl rfl rfl rfl

theorem jsonEqStr_true {j : Json} {s : String} (h : jsonEqStr j s = true) :
    j = .str s := by
  cases j <;> simp [jsonEqStr] at h
  exact congrArg Json.str h

theorem getD_null_str {o : Option Json} {s : String}
    (h : o.getD .null = .str s) : o = some (.str s) := by
  cases o with
  | none => exact absurd h (by simp)
  | some v => simp at h; rw [h]

theorem filterByStatus_sublist (ops : List Json) (s : String) :
    ∀ l, filterByStatus ops s = .ok l → l.Sublist ops := by
  induction ops with
  | nil =>
    intro l h
    simp [filterByStatus] at h
    simp [← h]
  | cons o rest ih =>
    intro l h
    simp only [filterByStatus] at h
    cases o with
    | obj fs =>
      rcases hrec : filterByStatus rest s with e | tail <;> simp only [hrec] at h
      · simp at h
      · by_cases hc : jsonEqStr ((fs.lookup "status").getD .null) s = true <;>
          simp [hc] at h
        · rw [← h]
          exact (ih tail hrec).cons₂ _
        · rw [← h]
          exact (ih tail hrec).cons _
    | null => simp at h
    | bool b => simp at h
    | num n => simp at h
    | str t => simp at h
    | arr xs => simp at h

theorem filterByStatus_mem (ops : List Json) (s : String) :
    ∀ l, filterByStatus ops s = .ok l →
      ∀ op ∈ l, ∃ fs, op = .obj fs ∧ fs.lookup "status" = some (.str s) := by
  induction ops with
  | nil =>
    intro l h op hop
    simp [filterByStatus] at h
    subst h
    simp at hop
  | cons o rest ih =>
    intro l h op hop
    simp only [filterByStatus] at h
    cases o with
    | obj fs =>
      rcases hrec : filterByStatus rest s with e | tail <;> simp only [hrec] at h
      · simp at h
      · by_cases hc : jsonEqStr ((fs.lookup "status").getD .null) s = true <;>
          simp [hc] at h
        · rw [← h] at hop
          rcases List.mem_cons.mp hop with hop1 | hop2
          · exact ⟨fs, hop1, getD_null_str (jsonEqStr_true hc)⟩
          · exact ih tail hrec op hop2
        · rw [← h] at hop
          exact ih tail hrec op hop
    | null => simp at h
    | bool b => simp at h
    | num n => simp at h
    | str t => simp at h
    | arr xs => simp at h

theorem search_operators_fst (w : World) (department status : Option String)
    (base_url : String) :
    (search_operators w department status base_url).1 =
      (if optStrTruthy department then
        (get_operators_by_department w (department.getD "") base_url).1
       else (get_all_operators w base_url).1) := by
  simp only [search_operators]
  by_cases hd : optStrTruthy department = true <;> simp [hd]

theorem search_operators_snd (w : World) (department status : Option String)
    (base_url : String) (ops : List Json)
    (hfetch : (if optStrTruthy department then
        get_operators_by_department w (department.getD "") base_url
       else get_all_operators w base_url).2 = .ok (.arr ops)) :
    (search_operators w department status base_url).2 =
      (if optStrTruthy status then
        (filterByStatus ops (status.getD "")).map Json.arr
       else .ok (.arr ops)) := by
  simp only [search_operators, hfetch]
  by_cases hs : optStrTruthy status = true <;> simp [hs, Json.pyIter]

/-- C3 counterexample: the empty string is a given status argument, but
Python truthiness (`if status:`) skips the filter for it: on the mock server
`search_operators` with status `""` returns the full operator list, which
contains a record whose status field is `"Active"`, different from the given
status `""`. -/
theorem search_operators_status_cex :
    (search_operators mockWorld none (some "") "B").2 =
      .ok (.arr [opJohn, opJane]) ∧
    Json.pyDictGet opJohn "status" = .ok (.str "Active") ∧
    ("Active" : String) ≠ "" :=
  ⟨rfl, rfl, by decide⟩

/-- C3 (amended): whenever the given status is non-empty (hence truthy),
every record in the list returned by `search_operators` is a dict whose
status field equals the given status. -/
theorem search_operators_status_filter_sound (w : World)
    (department : Option String) (st : String) (base_url : String)
    (hst : st ≠ "") (j : Json)
    (h : (search_operators w department (some st) base_url).2 = .ok j) :
    ∃ l, j = .arr l ∧
      ∀ op ∈ l, ∃ fs, op = .obj fs ∧ fs.lookup "status" = some (.str st) := by
  simp only [search_operators] at h
  rcases hp : (if optStrTruthy department then
      get_operators_by_department w (department.getD "") base_url
     else get_all_operators w base_url).2 with e | operators <;>
    simp only [hp] at h
  · simp at h
  · have htr : optStrTruthy (some st) = true := by simp [optStrTruthy, hst]
    simp only [htr, if_true, Option.getD] at h
    rcases hit : operators.pyIter with e | ops <;> simp only [hit] at h
    · simp at h
    · rcases hf : filterByStatus ops st with e | l <;>
        simp only [hf, Except.map] at h
      · simp at h
      · exact ⟨l, (Except.ok.inj h).symm, filterByStatus_mem ops st l hf⟩

/-- C3 witness: on the mock server with no department and status
`"Inactive"`, the returned list exists and each of its records carries status
`"Inactive"`. -/
theorem search_operators_status_filter_sound_witness :
    ∃ l, Json.arr [opJane] = .arr l ∧
      ∀ op ∈ l, ∃ fs, op = .obj fs ∧
        fs.lookup "status" = some (.str "Inactive") :=
  search_operators_status_filter_sound mockWorld none "Inactive" "B"
    (by decide) (.arr [opJane]) rfl

/-- C4 counterexample: the empty string is a given department argument, but
`if department:` is false for it, so `search_operators` issues the
all-operators request rather than the by-department request: on the split
server its one request is to `B/operators`, returning that url's list, even
though the department url (a different url) answers with a different list. -/
theorem search_operators_choice_cex :
    (search_operators splitWorld (some "") none "B").1 =
      [getReq ("B" ++ "/operators")] ∧
    (search_operators splitWorld (some "") none "B").2 = .ok (.arr [.num 1]) ∧
    splitWorld.respond (getReq ("B" ++ ("/operators/department/" ++ ""))) =
      .response 200 (.arr [.num 2]) ∧
    ("B" ++ "/operators" : String) ≠ "B" ++ ("/operators/department/" ++ "") :=
  ⟨rfl, rfl, rfl, by decide⟩

/-- C4 (amended): `search_operators` delegates to
`get_operators_by_department` exactly when the department argument is truthy
(present and non-empty) and to `get_all_operators` otherwise, both for the
requests it issues and for the dataset; it then applies the in-memory status
filter to the fetched list exactly when the status argument is truthy, and
returns the fetched value unchanged otherwise. -/
theorem search_operators_choice (w : World) (department status : Option String)
    (base_url : String) :
    (search_operators w department status base_url).1 =
      (if optStrTruthy department then
        (get_operators_by_department w (department.getD "") base_url).1
       else (get_all_operators w base_url).1) ∧
    (∀ ops : List Json,
      (if optStrTruthy department then
        get_operators_by_department w (department.getD "") base_url
       else get_all_operators w base_url).2 = .ok (.arr ops) →
      (search_operators w department status base_url).2 =
        (if optStrTruthy status then
          (filterByStatus ops (status.getD "")).map Json.arr
         else .ok (.arr ops))) :=
  ⟨search_operators_fst w department status base_url,
   fun ops hfetch => search_operators_snd w department status base_url ops hfetch⟩

/-- C4 witness: on the mock server with department `"Production"` and status
`"Active"`, the delegation equality instantiates and computes to the
filtered production roster. -/
theorem search_operators_choice_witness :
    (search_operators mockWorld (some "Production") (some "Active") "B").2 =
      .ok (.arr [opJohn]) :=
  ((search_operators_choice mockWorld (some "Production") (some "Active") "B").2
    [opJohn] rfl).trans rfl

/-- C5 counterexample: with the given department `""`, the result of
`search_operators` is the all-operators list of the split server, which is
not a subsequence of the list the by-department fetch returns there. -/
theorem search_operators_sublist_cex :
    (search_operators splitWorld (some "") none "B").2 = .ok (.arr [.num 1]) ∧
    splitWorld.respond
        (getReq ("B" ++ ("/operators/department/" ++ ""))) =
      .response 200 (.arr [.num 2]) ∧
    ¬ ([Json.num 1].Sublist [Json.num 2]) := by
  refine ⟨rfl, rfl, fun hsub => ?_⟩
  have hm : Json.num 1 ∈ [Json.num 2] := hsub.subset (by simp)
  simp only [List.mem_singleton, Json.num.injEq] at hm
  exact absurd hm (by decide)

/-- C5 (amended): whenever the fetch the code performs (by-department when
the department argument is truthy, all-operators otherwise) returns a list,
any list `search_operators` returns is a subsequence of it — elements in
server order, never modified, reordered or added — and an empty fetched list
yields the empty list without raising. -/
theorem search_operators_returns_sublist (w : World)
    (department status : Option String) (base_url : String) (ops : List Json)
    (hfetch : (if optStrTruthy department then
        get_operators_by_department w (department.getD "") base_url
       else get_all_operators w base_url).2 = .ok (.arr ops)) :
    (∀ j, (search_operators w department status base_url).2 = .ok j →
      ∃ l, j = .arr l ∧ l.Sublist ops) ∧
    (ops = [] →
      (search_operators w department status base_url).2 = .ok (.arr [])) := by
  have hsnd := search_operators_snd w department status base_url ops hfetch
  by_cases hs : optStrTruthy status = true
  · rw [hsnd, if_pos hs]
    constructor
    · intro j h
      rcases hf : filterByStatus ops (status.getD "") with e | l <;>
        simp only [hf, Except.map] at h
      · simp at h
      · exact ⟨l, (Except.ok.inj h).symm, filterByStatus_sublist ops _ l hf⟩
    · intro hops
      subst hops
      simp [filterByStatus, Except.map]
  · rw [hsnd, if_neg hs]
    exact ⟨fun j h => ⟨ops, (by simpa using h.symm), List.Sublist.refl ops⟩,
      fun hops => by rw [hops]⟩

/-- C5 witness: on the mock server with no department and status `"Active"`,
the returned list `[opJohn]` is a subsequence of the fetched list
`[opJohn, opJane]`. -/
theorem search_operators_returns_sublist_witness :
    ∃ l, Json.arr [opJohn] = .arr l ∧ l.Sublist [opJohn, opJane] :=
  (search_operators_returns_sublist mockWorld none (some "Active") "B"
    [opJohn, opJane] rfl).1 (.arr [opJohn]) rfl
